import Mathlib

/-!
# Verification of the Expense-Tracker ledger core

A shallow embedding of `src/main.py` (an SQLite-backed personal finance
ledger).  Pure helpers (`coerce_date`, `money`, the rule engine) are
translated directly; the SQLite-backed operations are modelled as explicit
state transformers over a `DB` record.  Two pieces of Python/SQLite
semantics are made explicit in the model, because the source relies on
them:

* `with get_conn() as c:` — Python's `sqlite3` connection context manager
  commits the implicit transaction when the block exits normally and rolls
  it back when an exception propagates out of the block.  Every operation
  below that performs multiple writes inside one `with` block is therefore
  modelled as an `Except`-valued body plus a wrapper that returns the
  *original* state on error (rollback) and the threaded state on success.
* foreign-key actions declared in the schema (`PRAGMA foreign_keys = ON`):
  `transaction_splits.category_id` is `ON DELETE SET NULL`,
  `transaction_splits.transaction_id` and `budgets.category_id` are
  `ON DELETE CASCADE`, `categories.parent_id` is `ON DELETE CASCADE`,
  `transactions.account_id` is `ON DELETE SET NULL`.

Numeric (`REAL`) amounts are modelled as `ℚ`; every amount handled by the
claims is a small decimal for which Python float arithmetic is exact.
Dates are stored as the strings the code stores; SQLite compares `TEXT`
by byte order, which on the ASCII strings involved coincides with Lean's
`String` order.
-/

namespace ExpenseTracker

set_option maxRecDepth 100000

section Main

attribute [local semireducible] Rat.add Rat.sub Rat.mul Rat.inv Rat.ofScientific

/-! ## String primitives

Structural-recursion re-implementations of the string operations the
source uses (`str.strip()`, `str.lower()`, slicing, splitting, digit
parsing, and SQLite's byte-order `TEXT` comparison, which on the ASCII
strings involved is codepoint-lexicographic). -/

deriving instance DecidableEq for Except

/-- `str.strip()` on a character list. -/
def trimChars (cs : List Char) : List Char :=
  ((cs.dropWhile Char.isWhitespace).reverse.dropWhile Char.isWhitespace).reverse

/-- `str.strip()`. -/
def strTrim (s : String) : String := String.mk (trimChars s.toList)

/-- `str.lower()`. -/
def strLower (s : String) : String := String.mk (s.toList.map Char.toLower)

/-- `s[:n]`. -/
def strTake (n : Nat) (s : String) : String := String.mk (s.toList.take n)

/-- `s[n:]`. -/
def strDrop (n : Nat) (s : String) : String := String.mk (s.toList.drop n)

/-- Split on a separator character. -/
def splitCharsAux (sep : Char) : List Char → List Char → List (List Char)
  | [], cur => [cur.reverse]
  | c :: cs, cur =>
    if c == sep then cur.reverse :: splitCharsAux sep cs []
    else splitCharsAux sep cs (c :: cur)

/-- Split a string on a separator character (`str.split(sep)`). -/
def splitSep (sep : Char) (s : String) : List String :=
  (splitCharsAux sep s.toList []).map String.mk

/-- Numeric value of a digit-character list (most significant first). -/
def charsToNat : List Char → Nat → Nat
  | [], acc => acc
  | c :: cs, acc => charsToNat cs (acc * 10 + (c.toNat - 48))

/-- Codepoint-lexicographic strict order on character lists: how SQLite
compares `TEXT` values made of ASCII. -/
def charListLt : List Char → List Char → Bool
  | [], [] => false
  | [], _ :: _ => true
  | _ :: _, [] => false
  | a :: as, b :: bs =>
    if a < b then true else if b < a then false else charListLt as bs

/-- Strict string order. -/
def strLtB (a b : String) : Bool := charListLt a.toList b.toList

/-- Non-strict string order. -/
def strLeB (a b : String) : Bool := ! charListLt b.toList a.toList

/-! ## Dates

`datetime`-backed helpers.  `coerce_date` (main.py:45) normalises a date
string to `YYYY-MM-DD`; `get_budget_summary` (main.py:580) and
`forecast_cashflow` (main.py:927) do calendar arithmetic with
`datetime`/`timedelta`.
-/

structure Date where
  y : Nat
  m : Nat
  d : Nat
deriving DecidableEq, Repr

/-- Gregorian leap-year rule, as implemented by `datetime`. -/
def isLeap (y : Nat) : Bool :=
  (y % 4 == 0 && y % 100 != 0) || y % 400 == 0

/-- Length of a calendar month, as implemented by `datetime`. -/
def daysInMonth (y m : Nat) : Nat :=
  if m = 2 then (if isLeap y then 29 else 28)
  else if m = 4 ∨ m = 6 ∨ m = 9 ∨ m = 11 then 30
  else 31

/-- One step of `timedelta(days=1)` subtraction on a calendar date. -/
def prevDay (dt : Date) : Date :=
  if dt.d > 1 then ⟨dt.y, dt.m, dt.d - 1⟩
  else if dt.m > 1 then ⟨dt.y, dt.m - 1, daysInMonth dt.y (dt.m - 1)⟩
  else ⟨dt.y - 1, 12, 31⟩

/-- `date - timedelta(days=n)`. -/
def subDays : Nat → Date → Date
  | 0, dt => dt
  | n + 1, dt => subDays n (prevDay dt)

/-- The decimal digit character for `n % 10`. -/
def digitChar (n : Nat) : Char := Char.ofNat (48 + n % 10)

/-- `%02d`: the two decimal digits of `n` (for `n ≤ 99`). -/
def pad2 (n : Nat) : List Char := [digitChar (n / 10), digitChar n]

/-- `%04d`: the four decimal digits of `n` (for `n ≤ 9999`). -/
def pad4 (n : Nat) : List Char :=
  [digitChar (n / 1000), digitChar (n / 100), digitChar (n / 10), digitChar n]

/-- `datetime.strftime("%Y-%m-%d")`: the canonical zero-padded form.
(CPython zero-pads the year for all years the parsers below can produce.) -/
def fmtDate (dt : Date) : String :=
  String.mk (pad4 dt.y ++ ['-'] ++ pad2 dt.m ++ ['-'] ++ pad2 dt.d)

/-- The fast-path test `re.match(r"^\d{4}-\d{2}-\d{2}$", s)` of
`coerce_date`: four digits, dash, two digits, dash, two digits. -/
def isCanonicalShape (s : String) : Bool :=
  match s.toList with
  | [a, b, c, d, s₁, e, f, s₂, g, h] =>
    a.isDigit && b.isDigit && c.isDigit && d.isDigit && s₁ == '-' &&
    e.isDigit && f.isDigit && s₂ == '-' && g.isDigit && h.isDigit
  | _ => false

/-- `strptime`'s `%Y` directive: exactly four digits. -/
def parseYear4 (p : String) : Option Nat :=
  if p.toList.length = 4 ∧ p.toList.all Char.isDigit then
    some (charsToNat p.toList 0)
  else none

/-- `strptime`'s `%m` directive: one or two digits, value 1–12. -/
def parseMonth2 (p : String) : Option Nat :=
  if (p.toList.length = 1 ∨ p.toList.length = 2) ∧ p.toList.all Char.isDigit then
    let v := charsToNat p.toList 0
    if 1 ≤ v ∧ v ≤ 12 then some v else none
  else none

/-- `strptime`'s `%d` directive: one or two digits, value 1–31. -/
def parseDay2 (p : String) : Option Nat :=
  if (p.toList.length = 1 ∨ p.toList.length = 2) ∧ p.toList.all Char.isDigit then
    let v := charsToNat p.toList 0
    if 1 ≤ v ∧ v ≤ 31 then some v else none
  else none

/-- The `datetime(y, m, d)` constructor's validation (`MINYEAR = 1`,
`MAXYEAR = 9999`, day bounded by the month's length). -/
def mkValidDate (y m d : Nat) : Option Date :=
  if 1 ≤ y ∧ y ≤ 9999 ∧ 1 ≤ m ∧ m ≤ 12 ∧ 1 ≤ d ∧ d ≤ daysInMonth y m then
    some ⟨y, m, d⟩
  else none

/-- `datetime.strptime(s, "%Y<sep>%m<sep>%d")`. -/
def tryYMD (sep : Char) (s : String) : Option Date :=
  match splitSep sep s with
  | [a, b, c] => do
    let y ← parseYear4 a
    let m ← parseMonth2 b
    let d ← parseDay2 c
    mkValidDate y m d
  | _ => none

/-- `datetime.strptime(s, "%d<sep>%m<sep>%Y")`. -/
def tryDMY (sep : Char) (s : String) : Option Date :=
  match splitSep sep s with
  | [a, b, c] => do
    let d ← parseDay2 a
    let m ← parseMonth2 b
    let y ← parseYear4 c
    mkValidDate y m d
  | _ => none

/-- `datetime.strptime(s, "%m<sep>%d<sep>%Y")`. -/
def tryMDY (sep : Char) (s : String) : Option Date :=
  match splitSep sep s with
  | [a, b, c] => do
    let m ← parseMonth2 a
    let d ← parseDay2 b
    let y ← parseYear4 c
    mkValidDate y m d
  | _ => none

/-- `strptime`'s `%m`/`%d` also accept two exact digits: used below for
the ISO fallback, whose month and day must be zero-padded. -/
def parseExact2 (p : String) (lo hi : Nat) : Option Nat :=
  if p.toList.length = 2 ∧ p.toList.all Char.isDigit then
    let v := charsToNat p.toList 0
    if lo ≤ v ∧ v ≤ hi then some v else none
  else none

/-- `datetime.fromisoformat(s[:10])`, modelled for the date-only canonical
ISO form `YYYY-MM-DD` (zero-padded, calendar-valid).  Other ISO variants
accepted by Python (e.g. `YYYYMMDD`) also round-trip to the canonical
form and are irrelevant to every claim, so they are omitted. -/
def isoPrefixDate (s : String) : Option Date :=
  match splitSep '-' (strTake 10 s) with
  | [a, b, c] => do
    let y ← parseYear4 a
    let m ← parseExact2 b 1 12
    let d ← parseExact2 c 1 31
    mkValidDate y m d
  | _ => none

/-- `coerce_date` (main.py:45): return canonical-shaped input unchanged;
otherwise try `%Y/%m/%d`, `%d-%m-%Y`, `%d/%m/%Y`, `%m-%d-%Y`, `%m/%d/%Y`
in that order, then an ISO-prefix fallback; otherwise a validation
error. -/
def coerce_date (s : String) : Except String String :=
  if isCanonicalShape s then .ok s
  else
    match (tryYMD '/' s).orElse (fun _ => (tryDMY '-' s).orElse (fun _ =>
            (tryDMY '/' s).orElse (fun _ => (tryMDY '-' s).orElse (fun _ =>
              tryMDY '/' s)))) with
    | some dt => .ok (fmtDate dt)
    | none =>
      match isoPrefixDate s with
      | some dt => .ok (fmtDate dt)
      | none => .error ("Invalid date format: " ++ s ++ ". Use YYYY-MM-DD.")

/-! ## Amounts

`money` (main.py:58) is `float(x)`; non-numeric input raises
`ValueError(f"Invalid amount: {x}")`.  Python values flowing into it are
modelled by `Val`; decimal-literal strings are parsed exactly into `ℚ`
(`float` is exact on every literal the claims use). -/

inductive Val where
  | vStr (s : String)
  | vNum (q : ℚ)
  | vNull
deriving DecidableEq, Repr

/-- Digits → value·10^count accumulator. -/
def digitsVal : List Char → Nat → Nat × Nat
  | [], acc => (acc, 0)
  | c :: cs, acc =>
    let (v, n) := digitsVal cs (acc * 10 + (c.toNat - 48))
    (v, n + 1)

/-- Parse an optional sign. -/
def parseSign : List Char → Bool × List Char
  | '+' :: cs => (false, cs)
  | '-' :: cs => (true, cs)
  | cs => (false, cs)

/-- Split a leading run of digits. -/
def spanDigits : List Char → List Char × List Char
  | [] => ([], [])
  | c :: cs =>
    if c.isDigit then
      let (ds, rest) := spanDigits cs
      (c :: ds, rest)
    else ([], c :: cs)

/-- Parse `float`'s decimal-literal syntax `[sign] digits [. digits]
[(e|E) [sign] digits]` (at least one mantissa digit; `inf`/`nan`
omitted — no claim involves them). -/
def parseDecimal (s : String) : Option ℚ :=
  let cs := trimChars s.toList
  let (neg, cs) := parseSign cs
  let (intDs, cs) := spanDigits cs
  let (fracDs, cs) :=
    match cs with
    | '.' :: cs' =>
      let (ds, rest) := spanDigits cs'
      (ds, rest)
    | _ => ([], cs)
  if intDs.isEmpty ∧ fracDs.isEmpty then none
  else
    let mantissa : ℚ :=
      (digitsVal intDs 0).1 + (digitsVal fracDs 0).1 / (10 : ℚ) ^ fracDs.length
    let signed := if neg then -mantissa else mantissa
    match cs with
    | [] => some signed
    | e :: cs' =>
      if e == 'e' ∨ e == 'E' then
        let (eneg, cs'') := parseSign cs'
        let (expDs, rest) := spanDigits cs''
        if expDs.isEmpty ∨ ¬ rest.isEmpty then none
        else
          let ex := (digitsVal expDs 0).1
          some (if eneg then signed / (10 : ℚ) ^ ex else signed * (10 : ℚ) ^ ex)
      else none

/-- String rendering of a `Val` for error messages (`f"{x}"`). -/
def Val.render : Val → String
  | .vStr s => s
  | .vNum q => toString q
  | .vNull => "None"

/-- `money` (main.py:58): `float(x)` or `ValueError`. -/
def money (v : Val) : Except String ℚ :=
  match v with
  | .vNum q => .ok q
  | .vStr s =>
    match parseDecimal s with
    | some q => .ok q
    | none => .error ("Invalid amount: " ++ s)
  | .vNull => .error ("Invalid amount: None")

/-- `⌊q⌋`, computed as floor division of numerator by denominator. -/
def ratFloor (q : ℚ) : ℤ := Int.fdiv q.num q.den

/-- Python's `round(q)` (round-half-to-even) on an exact rational. -/
def roundHalfEven (q : ℚ) : ℤ :=
  let f := ratFloor q
  let r := q - f
  if r < 1 / 2 then f
  else if r > 1 / 2 then f + 1
  else if f % 2 = 0 then f else f + 1

/-- Python's `round(q, 2)` on an exact rational. -/
def round2 (q : ℚ) : ℚ := (roundHalfEven (q * 100) : ℚ) / 100

/-! ## Classification rule engine

`_load_rules` (main.py:266) and `_apply_rules_row` (main.py:282).
A rule's `when_json` predicate may constrain a case-insensitive merchant
regex (`re.search`, i.e. substring search), an amount lower/upper bound
and an exact transaction type; its `set_json` overrides any subset of
`category_id`, `tags`, `gst_rate`.  `re.search(p, m, re.I)` is modelled
for metacharacter-free patterns (every pattern in the claims is a
literal) as case-insensitive substring containment. -/

structure WhenClause where
  merchant_regex : Option String := none
  amount_min : Option ℚ := none
  amount_max : Option ℚ := none
  type : Option String := none
deriving DecidableEq, Repr

structure SetClause where
  category_id : Option Nat := none
  tags : Option String := none
  gst_rate : Option ℚ := none
deriving DecidableEq, Repr

structure Rule where
  id : Nat
  whenClause : WhenClause
  setClause : SetClause
  priority : Int := 100
  enabled : Bool := true
deriving DecidableEq, Repr

/-- The candidate record `_apply_rules_row` receives:
`{"date", "amount", "type", "merchant", "notes"}`. -/
structure TrnRec where
  date : String
  amount : ℚ
  type : String
  merchant : String
  notes : String
deriving DecidableEq, Repr

/-- `re.search(pat, s, re.I)` for a metacharacter-free `pat`:
case-insensitive substring containment. -/
def ciSearch (pat s : String) : Bool :=
  (s.toList.map Char.toLower).tails.any
    (fun t => (pat.toList.map Char.toLower).isPrefixOf t)

/-- The predicate test of `_apply_rules_row` (main.py:289-298): every
present constraint must hold. -/
def ruleMatches (W : WhenClause) (trn : TrnRec) : Bool :=
  (match W.merchant_regex with
   | some p => ciSearch p trn.merchant
   | none => true) &&
  (match W.amount_min with
   | some lo => decide (lo ≤ trn.amount)
   | none => true) &&
  (match W.amount_max with
   | some hi => decide (trn.amount ≤ hi)
   | none => true) &&
  (match W.type with
   | some t => trn.type == t
   | none => true)

/-- `set_accum.update(S)` (main.py:300): last write wins per field. -/
def updateSet (acc S : SetClause) : SetClause where
  category_id := match S.category_id with | some v => some v | none => acc.category_id
  tags := match S.tags with | some v => some v | none => acc.tags
  gst_rate := match S.gst_rate with | some v => some v | none => acc.gst_rate

/-- Insert into a list already sorted by priority, after every element
with a priority `≤` the new one (the placement a stable sort gives). -/
def insertRule (r : Rule) : List Rule → List Rule
  | [] => [r]
  | x :: xs =>
    if x.priority < r.priority then x :: insertRule r xs
    else r :: x :: xs

/-- `sorted(rules, key=lambda x: x.get("priority", 100))` (main.py:284):
a stable sort, ascending by priority, ties kept in input order. -/
def sortRules : List Rule → List Rule
  | [] => []
  | x :: xs => insertRule x (sortRules xs)

/-- `_apply_rules_row` (main.py:282): visit enabled matching rules in
ascending-priority order and merge their overrides last-write-wins. -/
def apply_rules_row (trn : TrnRec) (rules : List Rule) : SetClause :=
  (sortRules rules).foldl
    (fun acc r =>
      if r.enabled && ruleMatches r.whenClause trn then updateSet acc r.setClause
      else acc)
    {}

/-! ## The ledger store

The SQLite tables the claims touch, as lists of records, with the
AUTOINCREMENT counters made explicit.  Ids are unique by construction
(fresh counters).  Stored dates are the canonical strings `coerce_date`
produces; SQLite's byte-order `TEXT` comparison on them is Lean's
`String` order. -/

structure Account where
  id : Nat
  name : String
deriving DecidableEq, Repr

structure Category where
  id : Nat
  name : String
  parentId : Option Nat
deriving DecidableEq, Repr

structure Txn where
  id : Nat
  date : String
  accountId : Option Nat
  amount : ℚ
  currency : String
  type : String
  merchant : String
  notes : String
deriving DecidableEq, Repr

structure Split where
  id : Nat
  txnId : Nat
  categoryId : Option Nat
  amount : ℚ
  gstRate : ℚ
  gstAmount : ℚ
  tags : String
deriving DecidableEq, Repr

structure Budget where
  month : String
  categoryId : Nat
  amount : ℚ
deriving DecidableEq, Repr

structure DB where
  accounts : List Account := []
  categories : List Category := []
  txns : List Txn := []
  splits : List Split := []
  budgets : List Budget := []
  rules : List Rule := []
  nextTxnId : Nat := 1
  nextSplitId : Nat := 1
deriving DecidableEq, Repr

def emptyDB : DB := {}

/-- `_load_rules` (main.py:266): `SELECT ... FROM rules WHERE enabled=1`.
Rules whose JSON fails to parse are skipped by the loader and simply do
not appear in the modelled `rules` table. -/
def loadRules (db : DB) : List Rule := db.rules.filter (fun r => r.enabled)

/-- `INSERT INTO transactions ...` under `PRAGMA foreign_keys = ON`: the
`CHECK(type IN (...))` constraint and the `account_id` foreign key can
reject the row (an `IntegrityError` in Python). -/
def insertTxn (db : DB) (date : String) (accountId : Option Nat) (amount : ℚ)
    (currency ty merchant notes : String) : Except String (DB × Nat) :=
  if ty ≠ "expense" ∧ ty ≠ "income" ∧ ty ≠ "transfer" then
    .error "CHECK constraint failed: transactions"
  else if (match accountId with
           | some a => ! db.accounts.any (fun x => x.id = a)
           | none => false) then
    .error "FOREIGN KEY constraint failed"
  else
    .ok ({ db with
            txns := db.txns ++
              [⟨db.nextTxnId, date, accountId, amount, currency, ty, merchant, notes⟩],
            nextTxnId := db.nextTxnId + 1 },
         db.nextTxnId)

/-- `INSERT INTO transaction_splits ...` under `PRAGMA foreign_keys = ON`. -/
def insertSplit (db : DB) (txnId : Nat) (categoryId : Option Nat) (amount : ℚ)
    (gstRate gstAmount : ℚ) (tags : String) : Except String DB :=
  if ¬ db.txns.any (fun t => t.id = txnId) then
    .error "FOREIGN KEY constraint failed"
  else if (match categoryId with
           | some c => ! db.categories.any (fun x => x.id = c)
           | none => false) then
    .error "FOREIGN KEY constraint failed"
  else
    .ok { db with
          splits := db.splits ++
            [⟨db.nextSplitId, txnId, categoryId, amount, gstRate, gstAmount, tags⟩],
          nextSplitId := db.nextSplitId + 1 }

/-! ### add_transaction (main.py:348) -/

/-- One element of the `splits` argument of `add_transaction`. -/
structure SplitIn where
  amount : Val := .vNum 0
  category_id : Option Nat := none
  gst_rate : ℚ := 0
  tags : String := ""
deriving DecidableEq, Repr

/-- The split loop of `add_transaction` (main.py:390-411): skip
zero-amount splits; per split, the rule engine may fill in a missing
category, empty tags and a zero GST rate. -/
def addTxnSplitsLoop (txId : Nat) (d ty merchant notes : String)
    (rules : List Rule) (applyRules : Bool) :
    DB → List SplitIn → Except String DB
  | db, [] => .ok db
  | db, sp :: rest =>
    match money sp.amount with
    | .error e => .error e
    | .ok spAmt =>
    if spAmt = 0 then
      addTxnSplitsLoop txId d ty merchant notes rules applyRules db rest
    else
      let categoryId := sp.category_id
      let gstRate := sp.gst_rate
      let gstAmt := if gstRate ≠ 0 then round2 (spAmt * gstRate / 100) else 0
      let tags := sp.tags
      let (categoryId, tags, gstRate, gstAmt) :=
        if applyRules then
          let setR := apply_rules_row ⟨d, spAmt, ty, merchant, notes⟩ rules
          let categoryId :=
            match setR.category_id with
            | some c => some c
            | none => categoryId
          let tags := if tags = "" then setR.tags.getD "" else tags
          let (gstRate, gstAmt) :=
            if gstRate = 0 then
              let g := setR.gst_rate.getD 0
              (g, if g ≠ 0 then round2 (spAmt * g / 100) else 0)
            else (gstRate, gstAmt)
          (categoryId, tags, gstRate, gstAmt)
        else (categoryId, tags, gstRate, gstAmt)
      match insertSplit db txId categoryId spAmt gstRate gstAmt tags with
      | .error e => .error e
      | .ok db' => addTxnSplitsLoop txId d ty merchant notes rules applyRules db' rest

/-- The body of `add_transaction`'s `with get_conn()` block: insert the
transaction row, then either the synthesized full-amount split (after
consulting the rule engine) or one split per supplied non-zero split. -/
def addTxnBody (db : DB) (d : String) (amt : ℚ) (ty : String)
    (accountId : Option Nat) (currency merchant notes : String)
    (splits : Option (List SplitIn)) (applyRules : Bool) :
    Except String (DB × Nat) :=
  match insertTxn db d accountId amt currency ty merchant notes with
  | .error e => .error e
  | .ok (db₁, txId) =>
    let rules := if applyRules then loadRules db else []
    match splits with
    | none | some [] =>
      let setR := apply_rules_row ⟨d, amt, ty, merchant, notes⟩ rules
      let categoryId := setR.category_id
      let tags := setR.tags.getD ""
      let gstRate := setR.gst_rate.getD 0
      let gstAmt := if gstRate ≠ 0 then round2 (amt * gstRate / 100) else 0
      match insertSplit db₁ txId categoryId amt gstRate gstAmt tags with
      | .error e => .error e
      | .ok db₂ => .ok (db₂, txId)
    | some sps =>
      match addTxnSplitsLoop txId d ty merchant notes rules applyRules db₁ sps with
      | .error e => .error e
      | .ok db₂ => .ok (db₂, txId)

/-- `add_transaction` (main.py:348).  Validation of date, amount and type
happens before the `with get_conn()` block; inside it, any exception
(e.g. a non-numeric split amount) rolls the whole implicit transaction
back, so the error case returns the original store.
(The Python type message quotes the three words; quotes are omitted
here.) -/
def add_transaction (db : DB) (date : String) (amount : Val) (ty : String)
    (accountId : Option Nat := none) (currency : String := "INR")
    (merchant : String := "") (notes : String := "")
    (splits : Option (List SplitIn) := none) (applyRules : Bool := true) :
    Except String Nat × DB :=
  match coerce_date date with
  | .error e => (.error e, db)
  | .ok d =>
    match money amount with
    | .error e => (.error e, db)
    | .ok amt =>
      if ty ≠ "expense" ∧ ty ≠ "income" ∧ ty ≠ "transfer" then
        (.error "type must be expense|income|transfer", db)
      else
        match addTxnBody db d amt ty accountId currency merchant notes splits applyRules with
        | .error e => (.error e, db)
        | .ok (db', txId) => (.ok txId, db')

/-! ### import_csv (main.py:683) -/

/-- A CSV data row after `DictReader`/`get_ci` header resolution: the
`date` and `amount` cells (with `get_ci`'s `"0"` default for a missing
amount) and the optional cells.  An absent or empty `category_name` is
`none` (`get_ci(...) or None`). -/
structure CsvRow where
  date : String
  amount : String := "0"
  merchant : String := ""
  notes : String := ""
  category_name : Option String := none
  tags : String := ""
deriving DecidableEq, Repr

/-- One entry of the dry-run preview. -/
structure PreviewRow where
  date : String
  amount : ℚ
  type : String
  merchant : String
  notes : String
  category_id : Option Nat
  tags : String
  gst_rate : ℚ
  gst_amount : ℚ
deriving DecidableEq, Repr

structure ImportOut where
  inserted : Nat
  preview : List PreviewRow
deriving DecidableEq, Repr

/-- The row loop of `import_csv` (main.py:708-749): per row, normalise
date and amount (either may raise), resolve `category_name` against
top-level categories only, classify through the rule engine, then either
preview (dry run) or insert one transaction+split pair. -/
def importLoop (dryRun : Bool) (dflt : String) (accId : Option Nat)
    (rules : List Rule) :
    DB → Nat → List PreviewRow → List CsvRow →
    Except String (DB × Nat × List PreviewRow)
  | db, inserted, preview, [] => .ok (db, inserted, preview)
  | db, inserted, preview, row :: rest =>
    match coerce_date (strTrim row.date) with
    | .error e => .error e
    | .ok d =>
    match money (.vStr row.amount) with
    | .error e => .error e
    | .ok amt =>
    let merchant := strTrim row.merchant
    let notes := strTrim row.notes
    let categoryId :=
      match row.category_name with
      | some nm =>
        (db.categories.find? (fun c => c.name == nm && c.parentId == none)).map
          (fun c => c.id)
      | none => none
    let setR := apply_rules_row ⟨d, amt, dflt, merchant, notes⟩ rules
    let categoryId :=
      match setR.category_id with
      | some c => some c
      | none => categoryId
    let tags := if strTrim row.tags = "" then setR.tags.getD "" else strTrim row.tags
    let gstRate := setR.gst_rate.getD 0
    let gstAmt := if gstRate ≠ 0 then round2 (amt * gstRate / 100) else 0
    if dryRun then
      importLoop dryRun dflt accId rules db inserted
        (preview ++ [⟨d, amt, dflt, merchant, notes, categoryId, tags, gstRate, gstAmt⟩])
        rest
    else
      match insertTxn db d accId amt "INR" dflt merchant notes with
      | .error e => .error e
      | .ok (db', txId) =>
        match insertSplit db' txId categoryId amt gstRate gstAmt tags with
        | .error e => .error e
        | .ok db'' => importLoop dryRun dflt accId rules db'' (inserted + 1) preview rest

/-- `import_csv` (main.py:683).  The missing-file and missing-header
checks fail before any write; the whole row loop then runs inside one
`with get_conn()` block, i.e. one implicit SQLite transaction: a row
failure propagates as an exception, the context manager rolls back, and
the operation returns the failing row's error with the store unchanged. -/
def import_csv (db : DB) (rows : List CsvRow) (dryRun : Bool := true)
    (defaultType : String := "expense") (accountId : Option Nat := none) :
    Except String ImportOut × DB :=
  let rules := loadRules db
  match importLoop dryRun defaultType accountId rules db 0 [] rows with
  | .error e => (.error e, db)
  | .ok (db', n, pv) => (.ok ⟨n, pv⟩, db')

/-! ### update_transaction (main.py:445), delete_transaction (main.py:470),
delete_split (main.py:493) -/

/-- The allow-list of `update_transaction`. -/
def allowedFields : List String :=
  ["date", "amount", "account_id", "currency", "type", "merchant", "notes"]

/-- The field-collection loop of `update_transaction` (main.py:451-456):
skip unknown keys, re-normalise `date`, re-validate `amount`. -/
def processFields : List (String × Val) → Except String (List (String × Val))
  | [] => .ok []
  | (k, v) :: rest =>
    if ¬ allowedFields.contains k then processFields rest
    else
      match
        (if k = "date" then
          match v with
          | .vStr s => (coerce_date s).map .vStr
          | _ => .error "expected string or bytes-like object"
        else if k = "amount" then (money v).map .vNum
        else .ok v) with
      | .error e => .error e
      | .ok v' =>
        match processFields rest with
        | .error e => .error e
        | .ok rest' => .ok ((k, v') :: rest')

/-- Effect of one `SET` assignment on a transaction row.  The `type`
CHECK constraint and the `account_id` foreign key can reject the update;
for the remaining columns a value of the column's type is stored.
(SQLite's dynamic typing would store mismatched values in unchecked
columns; no claim depends on that, so such writes are a
`datatype mismatch` here.) -/
def applyField (db : DB) (t : Txn) : String × Val → Except String Txn
  | ("date", .vStr s) => .ok { t with date := s }
  | ("amount", .vNum q) => .ok { t with amount := q }
  | ("account_id", .vNull) => .ok { t with accountId := none }
  | ("account_id", .vNum q) =>
    if q.den = 1 ∧ 0 ≤ q.num ∧ db.accounts.any (fun a => a.id = q.num.toNat) then
      .ok { t with accountId := some q.num.toNat }
    else .error "FOREIGN KEY constraint failed"
  | ("currency", .vStr s) => .ok { t with currency := s }
  | ("type", .vStr s) =>
    if s = "expense" ∨ s = "income" ∨ s = "transfer" then .ok { t with type := s }
    else .error "CHECK constraint failed: transactions"
  | ("merchant", .vStr s) => .ok { t with merchant := s }
  | ("notes", .vStr s) => .ok { t with notes := s }
  | _ => .error "datatype mismatch"

/-- Apply the `SET` assignments to one row, left to right. -/
def applyFields (db : DB) : Txn → List (String × Val) → Except String Txn
  | t, [] => .ok t
  | t, kv :: rest =>
    match applyField db t kv with
    | .error e => .error e
    | .ok t' => applyFields db t' rest

/-- Run the `UPDATE ... WHERE id=?` over the transactions table. -/
def updateTxns (db : DB) (id : Nat) (sets : List (String × Val)) :
    List Txn → Except String (List Txn)
  | [] => .ok []
  | t :: ts =>
    match (if t.id = id then applyFields db t sets else .ok t) with
    | .error e => .error e
    | .ok t' =>
      match updateTxns db id sets ts with
      | .error e => .error e
      | .ok ts' => .ok (t' :: ts')

/-- `update_transaction` (main.py:445): build the `SET` list from the
allow-listed fields (validation errors surface here, before any write);
an empty `SET` list is a validation error; otherwise run the `UPDATE`,
whose row count is the number of matching transactions — there is no
existence check, so a missing id yields a successful `{"updated": 0}`. -/
def update_transaction (db : DB) (id : Nat) (fields : List (String × Val)) :
    Except String Nat × DB :=
  match processFields fields with
  | .error e => (.error e, db)
  | .ok sets =>
    if sets.isEmpty then (.error "No updatable fields provided", db)
    else
      match updateTxns db id sets db.txns with
      | .error e => (.error e, db)
      | .ok txns' =>
        (.ok (db.txns.filter (fun t => t.id = id)).length, { db with txns := txns' })

/-- `delete_transaction` (main.py:470): `DELETE ... WHERE id=?` with no
existence check; splits cascade (`ON DELETE CASCADE`); the reply is the
row count, so a missing id is a successful `{"deleted": 0}`. -/
def delete_transaction (db : DB) (id : Nat) : Except String Nat × DB :=
  let hit := db.txns.any (fun t => t.id = id)
  let n := (db.txns.filter (fun t => t.id = id)).length
  (.ok n,
   { db with
     txns := db.txns.filter (fun t => t.id ≠ id),
     splits := if hit then db.splits.filter (fun s => s.txnId ≠ id) else db.splits })

/-- `delete_split` (main.py:493): same shape — no existence check,
row-count reply. -/
def delete_split (db : DB) (splitId : Nat) : Except String Nat × DB :=
  (.ok (db.splits.filter (fun s => s.id = splitId)).length,
   { db with splits := db.splits.filter (fun s => s.id ≠ splitId) })

/-! ### delete_category (main.py:1078) and delete_account (main.py:971) -/

/-- One expansion step of the recursive subtree CTE: the categories whose
parent is already collected and that are not yet collected. -/
def descStep (cats : List Category) (acc : List Nat) : List Nat :=
  (cats.filter (fun c =>
    (match c.parentId with
     | some p => acc.contains p
     | none => false) && ! acc.contains c.id)).map (fun c => c.id)

/-- Iterate `descStep` to a fixpoint (fuel-bounded; `cats.length` fuel
reaches the fixpoint on any acyclic forest, which the schema guarantees
by construction — categories are never re-parented). -/
def descClosure (cats : List Category) : Nat → List Nat → List Nat
  | 0, acc => acc
  | fuel + 1, acc =>
    let nxt := descStep cats acc
    if nxt.isEmpty then acc else descClosure cats fuel (acc ++ nxt)

/-- The recursive CTE of `delete_category` (main.py:1110-1118): a
category id together with its descendant closure. -/
def subtreeIds (cats : List Category) (id : Nat) : List Nat :=
  descClosure cats cats.length [id]

structure DeleteCatOut where
  deleted_categories : Nat
  reassigned_splits : Nat
  affected_category_ids : List Nat
  reassigned_to : Option Nat
deriving DecidableEq, Repr

/-- `delete_category` (main.py:1078): existence check; build the target
id set (subtree by default); optional reassignment of splits — guarded
only against a missing target and against `reassign_to_id == id` — then
delete.  Deletion carries the schema's foreign-key actions: children of
deleted categories cascade (`categories.parent_id ON DELETE CASCADE`),
surviving splits pointing at deleted categories are nulled
(`ON DELETE SET NULL`), budgets of deleted categories are removed
(`ON DELETE CASCADE`).  The reported deletion count is the statement's
own row count (the directly matched rows). -/
def delete_category (db : DB) (id : Nat) (reassign : Option Nat := none)
    (includeDescendants : Bool := true) : Except String DeleteCatOut × DB :=
  if ¬ db.categories.any (fun c => c.id = id) then
    (.error ("Category " ++ toString id ++ " not found"), db)
  else
    let targetIds := if includeDescendants then subtreeIds db.categories id else [id]
    let step2 : Except String (List Split × Nat) :=
      match reassign with
      | some t =>
        if t = id then
          .error "reassign_to_id cannot be the same as the category being deleted"
        else if ¬ db.categories.any (fun c => c.id = t) then
          .error ("Target category " ++ toString t ++ " not found")
        else
          let hitSplit := fun (s : Split) =>
            match s.categoryId with
            | some c => targetIds.contains c
            | none => false
          .ok (db.splits.map (fun s => if hitSplit s then { s with categoryId := some t } else s),
               (db.splits.filter (fun s => hitSplit s)).length)
      | none => .ok (db.splits, 0)
    match step2 with
    | .error e => (.error e, db)
    | .ok (splits₁, reassigned) =>
      let removed := descClosure db.categories db.categories.length targetIds
      let deleted := (db.categories.filter (fun c => targetIds.contains c.id)).length
      let db' : DB :=
        { db with
          categories := db.categories.filter (fun c => ! removed.contains c.id),
          splits := splits₁.map (fun s =>
            match s.categoryId with
            | some c => if removed.contains c then { s with categoryId := none } else s
            | none => s),
          budgets := db.budgets.filter (fun b => ! removed.contains b.categoryId) }
      (.ok ⟨deleted, reassigned, targetIds, reassign⟩, db')

structure DeleteAccOut where
  deleted : Nat
  reassigned_transactions : Nat
deriving DecidableEq, Repr

/-- `delete_account` (main.py:971): existence check; optional
reassignment of transactions with the analogous self/missing-target
guards; then delete, with remaining references nulled
(`transactions.account_id ON DELETE SET NULL`). -/
def delete_account (db : DB) (id : Nat) (reassign : Option Nat := none) :
    Except String DeleteAccOut × DB :=
  if ¬ db.accounts.any (fun a => a.id = id) then
    (.error ("Account " ++ toString id ++ " not found"), db)
  else
    let step2 : Except String (List Txn × Nat) :=
      match reassign with
      | some t =>
        if t = id then
          .error "reassign_to_id cannot be the same as the account being deleted"
        else if ¬ db.accounts.any (fun a => a.id = t) then
          .error ("Target account " ++ toString t ++ " not found")
        else
          .ok (db.txns.map (fun x => if x.accountId = some id then { x with accountId := some t } else x),
               (db.txns.filter (fun x => x.accountId = some id)).length)
      | none => .ok (db.txns, 0)
    match step2 with
    | .error e => (.error e, db)
    | .ok (txns₁, affected) =>
      let db' : DB :=
        { db with
          accounts := db.accounts.filter (fun a => a.id ≠ id),
          txns := txns₁.map (fun x =>
            if x.accountId = some id then { x with accountId := none } else x) }
      (.ok ⟨1, affected⟩, db')

/-! ### get_budget_summary (main.py:580) -/

/-- Last calendar day of a month: `datetime(y, m+1, 1) - timedelta(days=1)`
with December rolling into the next year (main.py:588). -/
def monthEnd (y m : Nat) : Date :=
  if m = 12 then prevDay ⟨y + 1, 1, 1⟩ else prevDay ⟨y, m + 1, 1⟩

/-- `re.match(r"^\d{6}$", month_yyyymm)`. -/
def isYYYYMM (s : String) : Bool :=
  s.toList.length == 6 && s.toList.all Char.isDigit

/-- A generic insertion step placing `x` after every element strictly
below it (what a stable sort does). -/
def insertSortedBy (lt : α → α → Bool) (x : α) : List α → List α
  | [] => [x]
  | y :: ys => if lt y x then y :: insertSortedBy lt x ys else x :: y :: ys

/-- Stable insertion sort (models `ORDER BY`). -/
def sortBy (lt : α → α → Bool) : List α → List α
  | [] => []
  | x :: xs => insertSortedBy lt x (sortBy lt xs)

/-- The `JOIN transaction_splits ts ON ts.transaction_id = t.id` filter
for expense rows in a date window (dates compared as SQLite compares
`TEXT`, i.e. by `String` order). -/
def splitInExpenseWindow (db : DB) (lo hi : String) (sp : Split) : Bool :=
  match db.txns.find? (fun t => t.id = sp.txnId) with
  | some t => t.type == "expense" && strLeB lo t.date && strLeB t.date hi
  | none => false

structure BudgetRow where
  category_id : Nat
  category_name : String
  budget_amount : Option ℚ
  actual_spent : ℚ
  variance : ℚ
deriving DecidableEq, Repr

/-- `get_budget_summary` (main.py:580): validate `YYYYMM`; compute the
month's first and last day; sum expense split amounts in that window per
category; left-outer-join every category against its budget row and its
actuals; `variance = COALESCE(budget,0) - COALESCE(spent,0)`; order by
category name. -/
def get_budget_summary (db : DB) (month : String) :
    Except String (List BudgetRow) :=
  if ¬ isYYYYMM month then .error "month_yyyymm must be YYYYMM"
  else
    let y := charsToNat (month.toList.take 4) 0
    let m := charsToNat (month.toList.drop 4) 0
    if ¬ (1 ≤ m ∧ m ≤ 12) then .error "month must be in 1..12"
    else if y = 0 then .error "year 0 is out of range"
    else
      let lo := fmtDate ⟨y, m, 1⟩
      let hi := fmtDate (monthEnd y m)
      let rows := db.categories.map (fun cat =>
        let spent :=
          ((db.splits.filter (fun sp =>
              splitInExpenseWindow db lo hi sp && sp.categoryId == some cat.id)).map
            (fun sp => sp.amount)).sum
        let budget :=
          (db.budgets.find? (fun b => b.month == month && b.categoryId = cat.id)).map
            (fun b => b.amount)
        { category_id := cat.id
          category_name := cat.name
          budget_amount := budget
          actual_spent := spent
          variance := budget.getD 0 - spent : BudgetRow })
      .ok (sortBy (fun r₁ r₂ => strLtB r₁.category_name r₂.category_name) rows)

/-! ### forecast_cashflow (main.py:927) -/

structure HistRow where
  ym : String
  inc : ℚ
  exp : ℚ
  net : ℚ
deriving DecidableEq, Repr

structure YM where
  y : Nat
  m : Nat
deriving DecidableEq, Repr

structure FcRow where
  ym : YM
  net : ℚ
deriving DecidableEq, Repr

structure ForecastOut where
  history : List HistRow
  forecast : List FcRow
deriving DecidableEq, Repr

/-- The joined `(transaction, split)` rows. -/
def txnSplitPairs (db : DB) : List (Txn × Split) :=
  db.splits.filterMap (fun sp =>
    (db.txns.find? (fun t => t.id = sp.txnId)).map (fun t => (t, sp)))

/-- The monthly CTE of `forecast_cashflow` (main.py:938-946): group the
joined rows with `date >= start` by the 7-character month prefix; a month
with no rows is simply absent. -/
def monthlyHist (db : DB) (startS : String) : List HistRow :=
  let pairs := (txnSplitPairs db).filter (fun p => strLeB startS p.1.date)
  let yms := sortBy strLtB (pairs.map (fun p => strTake 7 p.1.date)).dedup
  yms.map (fun ym =>
    let here := pairs.filter (fun p => strTake 7 p.1.date == ym)
    let inc := ((here.filter (fun p => p.1.type == "income")).map (fun p => p.2.amount)).sum
    let ex := ((here.filter (fun p => p.1.type == "expense")).map (fun p => p.2.amount)).sum
    ⟨ym, inc, ex, inc - ex⟩)

/-- `sum(net) / max(1, len(hist))`. -/
def histAvg (l : List HistRow) : ℚ :=
  (l.map (fun r => r.net)).sum / ((max 1 l.length : Nat) : ℚ)

/-- Month successor with December→January rollover (main.py:963-965). -/
def nextYM (p : YM) : YM :=
  if p.m + 1 > 12 then ⟨p.y + 1, 1⟩ else ⟨p.y, p.m + 1⟩

/-- The projection loop: `count` successive months after `p`. -/
def projMonths (p : YM) : Nat → List YM
  | 0 => []
  | k + 1 => nextYM p :: projMonths (nextYM p) k

/-- `max(1, min(24, months))`. -/
def clampMonths (months : Int) : Nat := (max 1 (min 24 months)).toNat

/-- `forecast_cashflow` (main.py:927), with `datetime.now().date()`
passed explicitly.  History window start:
`(today.replace(day=1) - timedelta(days=180)).replace(day=1)`.  The flat
average is projected forward as `round(avg_net, 2)` per month. -/
def forecast_cashflow (db : DB) (months : Int) (today : Date) :
    Except String ForecastOut :=
  let n := clampMonths months
  let startD := subDays 180 ⟨today.y, today.m, 1⟩
  let startS := fmtDate ⟨startD.y, startD.m, 1⟩
  let hist := monthlyHist db startS
  match hist.getLast? with
  | none => .ok ⟨[], []⟩
  | some lastRow =>
    let avg := histAvg hist
    match tryYMD '-' (lastRow.ym ++ "-01") with
    | none => .error ("time data " ++ lastRow.ym ++ "-01 does not match format")
    | some lastD =>
      .ok ⟨hist, (projMonths ⟨lastD.y, lastD.m⟩ n).map (fun p => ⟨p, round2 avg⟩)⟩

/-! ## Concrete instances used in the claim theorems -/

/-- `{priority: 10, merchant~"AMZN" -> category=5}` (spec §8). -/
def amznRule10 : Rule :=
  { id := 1, whenClause := { merchant_regex := some "AMZN" },
    setClause := { category_id := some 5 }, priority := 10 }

/-- `{priority: 20, merchant~"AMZN" -> category=7}` (spec §8). -/
def amznRule20 : Rule :=
  { id := 2, whenClause := { merchant_regex := some "AMZN" },
    setClause := { category_id := some 7 }, priority := 20 }

/-- A record with merchant `"AMZN MKTP"`. -/
def amznTrn : TrnRec :=
  { date := "2024-01-02", amount := 100, type := "expense",
    merchant := "AMZN MKTP", notes := "" }

/-- A valid CSV row. -/
def csvRowGood : CsvRow := { date := "2024-01-02", amount := "100" }

/-- A CSV row with a non-numeric amount. -/
def csvRowBad : CsvRow := { date := "2024-01-03", amount := "abc" }

/-- A second valid CSV row. -/
def csvRowGood2 : CsvRow := { date := "2024-01-04", amount := "40" }

/-- A category `1` with child `2`, and one split categorised under the
child. -/
def dbSubtree : DB :=
  { categories := [⟨1, "A", none⟩, ⟨2, "B", some 1⟩],
    txns := [⟨1, "2024-01-02", none, 10, "INR", "expense", "", ""⟩],
    splits := [⟨1, 1, some 2, 10, 0, 0, ""⟩],
    nextTxnId := 2, nextSplitId := 2 }

/-- `dbSubtree` with an extra top-level category `3` (a valid
reassignment target outside the subtree of `1`). -/
def dbSubtree3 : DB :=
  { dbSubtree with categories := dbSubtree.categories ++ [⟨3, "C", none⟩] }

/-- One category with a 500 budget and a 300 expense split in January
2024, and one category with neither (spec §8). -/
def dbBudget : DB :=
  { categories := [⟨1, "Food", none⟩, ⟨2, "Other", none⟩],
    budgets := [⟨"202401", 1, 500⟩],
    txns := [⟨1, "2024-01-15", none, 300, "INR", "expense", "", ""⟩],
    splits := [⟨1, 1, some 1, 300, 0, 0, ""⟩],
    nextTxnId := 2, nextSplitId := 2 }

/-- A two-month history with nets `[100, -50]` in 2023-11 and 2023-12
(spec §8's forecast example, positioned to cross a December→January
rollover). -/
def dbForecast : DB :=
  { txns := [⟨1, "2023-11-05", none, 100, "INR", "income", "", ""⟩,
             ⟨2, "2023-12-05", none, 50, "INR", "expense", "", ""⟩],
    splits := [⟨1, 1, none, 100, 0, 0, ""⟩, ⟨2, 2, none, 50, 0, 0, ""⟩],
    nextTxnId := 3, nextSplitId := 3 }

/-- The history `forecast_cashflow` computes from `dbForecast`. -/
def histForecast : List HistRow :=
  [⟨"2023-11", 100, 0, 100⟩, ⟨"2023-12", 0, 50, -50⟩]

/-- A three-month history with nets `[100, 0, 0]`, whose average `100/3`
is not representable in two decimal places. -/
def dbForecastFrac : DB :=
  { txns := [⟨1, "2024-01-10", none, 100, "INR", "income", "", ""⟩,
             ⟨2, "2024-02-10", none, 50, "INR", "income", "", ""⟩,
             ⟨3, "2024-02-11", none, 50, "INR", "expense", "", ""⟩,
             ⟨4, "2024-03-10", none, 7, "INR", "income", "", ""⟩,
             ⟨5, "2024-03-11", none, 7, "INR", "expense", "", ""⟩],
    splits := [⟨1, 1, none, 100, 0, 0, ""⟩, ⟨2, 2, none, 50, 0, 0, ""⟩,
               ⟨3, 3, none, 50, 0, 0, ""⟩, ⟨4, 4, none, 7, 0, 0, ""⟩,
               ⟨5, 5, none, 7, 0, 0, ""⟩],
    nextTxnId := 6, nextSplitId := 6 }

/-- The history `forecast_cashflow` computes from `dbForecastFrac`. -/
def histForecastFrac : List HistRow :=
  [⟨"2024-01", 100, 0, 100⟩, ⟨"2024-02", 50, 50, 0⟩, ⟨"2024-03", 7, 7, 0⟩]

/-- A store holding a single transaction with id 1. -/
def dbOneTxn : DB :=
  { txns := [⟨1, "2024-01-01", none, 10, "INR", "expense", "", ""⟩],
    nextTxnId := 2 }

/-- The store after committing `csvRowGood` alone into `emptyDB`. -/
def dbOneImported : DB :=
  { txns := [⟨1, "2024-01-02", none, 100, "INR", "expense", "", ""⟩],
    splits := [⟨1, 1, none, 100, 0, 0, ""⟩],
    nextTxnId := 2, nextSplitId := 2 }

/-- A valid explicit split. -/
def goodSplitIn : SplitIn := { amount := .vNum 50 }

/-- An explicit split with a non-numeric amount. -/
def badSplitIn : SplitIn := { amount := .vStr "x" }

/-! ## Helper lemmas -/

theorem mem_insertRule {x r : Rule} {l : List Rule} :
    x ∈ insertRule r l ↔ x = r ∨ x ∈ l := by
  induction l with
  | nil => simp [insertRule]
  | cons y ys ih =>
    by_cases h : y.priority < r.priority
    · simp only [insertRule, if_pos h, List.mem_cons, ih]
      tauto
    · simp only [insertRule, if_neg h, List.mem_cons]

theorem pairwise_insertRule {r : Rule} {l : List Rule}
    (h : l.Pairwise fun a b => a.priority ≤ b.priority) :
    (insertRule r l).Pairwise fun a b => a.priority ≤ b.priority := by
  induction l with
  | nil => simp [insertRule]
  | cons y ys ih =>
    rcases List.pairwise_cons.mp h with ⟨hy, hys⟩
    by_cases hlt : y.priority < r.priority
    · rw [insertRule, if_pos hlt]
      refine List.pairwise_cons.mpr ⟨?_, ih hys⟩
      intro z hz
      rcases mem_insertRule.mp hz with rfl | hz
      · exact le_of_lt hlt
      · exact hy z hz
    · rw [insertRule, if_neg hlt]
      refine List.pairwise_cons.mpr ⟨?_, h⟩
      intro z hz
      rcases List.mem_cons.mp hz with rfl | hz
      · exact le_of_not_lt hlt
      · exact le_trans (le_of_not_lt hlt) (hy z hz)

theorem sortRules_pairwise (l : List Rule) :
    (sortRules l).Pairwise fun a b => a.priority ≤ b.priority := by
  induction l with
  | nil => simp [sortRules]
  | cons x xs ih => exact pairwise_insertRule ih

theorem insertSortedBy_perm (lt : α → α → Bool) (x : α) (l : List α) :
    List.Perm (insertSortedBy lt x l) (x :: l) := by
  induction l with
  | nil => simp [insertSortedBy]
  | cons y ys ih =>
    by_cases h : lt y x
    · rw [insertSortedBy, if_pos h]
      exact (ih.cons y).trans (List.Perm.swap x y ys)
    · rw [insertSortedBy, if_neg h]

theorem sortBy_perm (lt : α → α → Bool) (l : List α) :
    List.Perm (sortBy lt l) l := by
  induction l with
  | nil => simp [sortBy]
  | cons x xs ih => exact (insertSortedBy_perm lt x (sortBy lt xs)).trans (ih.cons x)

theorem projMonths_length (p : YM) (n : Nat) : (projMonths p n).length = n := by
  induction n generalizing p with
  | zero => rfl
  | succ k ih => simp [projMonths, ih]

theorem projMonths_chain (n : Nat) (p : YM) :
    List.Chain (fun a b => b = nextYM a) p (projMonths p n) := by
  induction n generalizing p with
  | zero => exact List.Chain.nil
  | succ k ih => exact List.Chain.cons rfl (ih (nextYM p))

theorem projMonths_chain' (n : Nat) (p : YM) :
    List.Chain' (fun a b => b = nextYM a) (projMonths p n) := by
  cases n with
  | zero => simp [projMonths]
  | succ k => exact projMonths_chain k (nextYM p)

theorem insertTxn_ok {db : DB} {date : String} {accountId : Option Nat}
    {amount : ℚ} {currency ty merchant notes : String} {db₁ : DB} {tx : Nat}
    (h : insertTxn db date accountId amount currency ty merchant notes =
          .ok (db₁, tx)) :
    db₁.txns.length = db.txns.length + 1 ∧ db₁.splits = db.splits := by
  rw [insertTxn.eq_def] at h
  split at h
  · cases h
  · split at h
    · cases h
    · injection h with h
      injection h with h₁ h₂
      subst h₁
      simp

theorem insertSplit_ok {db : DB} {txnId : Nat} {categoryId : Option Nat}
    {amount gstRate gstAmount : ℚ} {tags : String} {db₂ : DB}
    (h : insertSplit db txnId categoryId amount gstRate gstAmount tags = .ok db₂) :
    db₂.splits.length = db.splits.length + 1 ∧ db₂.txns = db.txns := by
  rw [insertSplit.eq_def] at h
  split at h
  · cases h
  · split at h
    · cases h
    · injection h with h
      subst h
      simp

theorem importLoop_append (dr : Bool) (df : String) (ai : Option Nat)
    (rules : List Rule) (xs ys : List CsvRow) :
    ∀ (db : DB) (n : Nat) (pv : List PreviewRow),
      importLoop dr df ai rules db n pv (xs ++ ys) =
        Except.bind (importLoop dr df ai rules db n pv xs)
          (fun r => importLoop dr df ai rules r.1 r.2.1 r.2.2 ys) := by
  induction xs with
  | nil =>
    intro db n pv
    rfl
  | cons row rest ih =>
    intro db n pv
    simp only [List.cons_append, importLoop]
    split
    · rfl
    · split
      · rfl
      · split
        · exact ih _ _ _
        · split
          · rfl
          · split
            · rfl
            · exact ih _ _ _

theorem importLoop_commit_counts (df : String) (ai : Option Nat)
    (rules : List Rule) :
    ∀ (rows : List CsvRow) (db : DB) (n : Nat) (pv : List PreviewRow)
      (db' : DB) (n' : Nat) (pv' : List PreviewRow),
      importLoop false df ai rules db n pv rows = .ok (db', n', pv') →
      n' = n + rows.length ∧
      db'.txns.length = db.txns.length + rows.length ∧
      db'.splits.length = db.splits.length + rows.length ∧ pv' = pv := by
  intro rows
  induction rows with
  | nil =>
    intro db n pv db' n' pv' h
    rw [importLoop] at h
    injection h with h
    injection h with h₁ h
    injection h with h₂ h₃
    subst h₁
    subst h₂
    subst h₃
    simp
  | cons row rest ih =>
    intro db n pv db' n' pv' h
    simp only [importLoop] at h
    split at h
    · cases h
    · split at h
      · cases h
      · split at h
        · rename_i hdr
          cases hdr
        · split at h
          · cases h
          · rename_i db₁ txId hins
            split at h
            · cases h
            · rename_i db₂ hsplit
              obtain ⟨h1, h2, h3, h4⟩ := ih _ _ _ _ _ _ h
              obtain ⟨ht1, ht2⟩ := insertTxn_ok hins
              obtain ⟨hs1, hs2⟩ := insertSplit_ok hsplit
              refine ⟨by simp [List.length_cons]; omega, ?_, ?_, h4⟩
              · rw [h2, hs2, ht1]
                simp [List.length_cons]
                omega
              · rw [h3, hs1, ht2]
                simp [List.length_cons]
                omega

theorem processFields_filter (fields : List (String × Val)) :
    processFields fields =
      processFields (fields.filter (fun kv => allowedFields.contains kv.1)) := by
  induction fields with
  | nil => rfl
  | cons kv rest ih =>
    obtain ⟨k, v⟩ := kv
    by_cases hk : allowedFields.contains k = true
    · simp only [processFields, List.filter_cons, hk, if_true, not_true, if_false]
      rw [ih]
    · simp only [processFields, List.filter_cons, hk, if_false,
        Bool.false_eq_true, not_false_iff, if_true]
      exact ih

theorem updateTxns_miss (db : DB) (id : Nat) (sets : List (String × Val)) :
    ∀ l : List Txn, (∀ t ∈ l, t.id ≠ id) → updateTxns db id sets l = .ok l := by
  intro l
  induction l with
  | nil => intro _; rfl
  | cons t ts ih =>
    intro hall
    have ht : ¬ (t.id = id) := hall t (by simp)
    simp only [updateTxns, if_neg ht]
    rw [ih (fun x hx => hall x (by simp [hx]))]

theorem any_false_filter {α} (p : α → Bool) (l : List α) (h : l.any p = false) :
    l.filter p = [] := by
  rw [List.filter_eq_nil_iff]
  intro a ha hpa
  have : l.any p = true := List.any_eq_true.mpr ⟨a, ha, hpa⟩
  rw [h] at this
  cases this

theorem digitChar_isDigit (n : Nat) : (digitChar n).isDigit = true := by
  have h : n % 10 < 10 := Nat.mod_lt _ (by decide)
  unfold digitChar
  revert h
  generalize n % 10 = k
  intro h
  interval_cases k <;> decide

theorem fmtDate_canonical (dt : Date) : isCanonicalShape (fmtDate dt) = true := by
  show isCanonicalShape (String.mk _) = true
  simp [fmtDate, pad4, pad2, isCanonicalShape, String.toList, digitChar_isDigit]

theorem coerce_date_canonical {s : String} (h : isCanonicalShape s = true) :
    coerce_date s = .ok s := by
  rw [coerce_date, if_pos h]

theorem coerce_date_ok_shape {s t : String} (h : coerce_date s = .ok t) :
    isCanonicalShape t = true := by
  rw [coerce_date] at h
  split at h
  · cases h
    assumption
  · split at h
    · cases h
      exact fmtDate_canonical _
    · split at h
      · cases h
        exact fmtDate_canonical _
      · cases h

/-! ## Claim theorems -/

/-- C1: The rule engine evaluates rules in ascending priority order (the
sorted list is ordered by priority; equal priorities keep load order),
merging each matching rule's overrides last-write-wins per field, so that
of two matching rules setting the same field the one with the
higher-numbered priority determines the final value — and with a tie the
later-loaded rule does; in particular, with rules
`{priority:10, merchant~"AMZN" -> category=5}` and
`{priority:20, merchant~"AMZN" -> category=7}`, a record with merchant
`"AMZN MKTP"` is assigned category 7. -/
theorem C1_rule_priority_order_last_write_wins :
    (∀ rules : List Rule,
        (sortRules rules).Pairwise fun a b => a.priority ≤ b.priority)
  ∧ (∀ (trn : TrnRec) (r₁ r₂ : Rule) (c₁ c₂ : Nat),
        r₁.enabled = true → r₂.enabled = true →
        ruleMatches r₁.whenClause trn = true →
        ruleMatches r₂.whenClause trn = true →
        r₁.setClause.category_id = some c₁ →
        r₂.setClause.category_id = some c₂ →
        r₁.priority < r₂.priority →
        (apply_rules_row trn [r₁, r₂]).category_id = some c₂ ∧
        (apply_rules_row trn [r₂, r₁]).category_id = some c₂)
  ∧ (∀ (trn : TrnRec) (r₁ r₂ : Rule) (c₂ : Nat),
        r₁.enabled = true → r₂.enabled = true →
        ruleMatches r₁.whenClause trn = true →
        ruleMatches r₂.whenClause trn = true →
        r₂.setClause.category_id = some c₂ →
        r₁.priority = r₂.priority →
        (apply_rules_row trn [r₁, r₂]).category_id = some c₂)
  ∧ (apply_rules_row amznTrn [amznRule10, amznRule20]).category_id = some 7 := by
  refine ⟨sortRules_pairwise, ?_, ?_, by rfl⟩
  · intro trn r₁ r₂ c₁ c₂ he₁ he₂ hm₁ hm₂ hc₁ hc₂ hlt
    have hs₁ : sortRules [r₁, r₂] = [r₁, r₂] := by
      simp [sortRules, insertRule, if_neg (lt_asymm hlt)]
    have hs₂ : sortRules [r₂, r₁] = [r₁, r₂] := by
      simp [sortRules, insertRule, if_pos hlt]
    constructor
    · simp [apply_rules_row, hs₁, he₁, he₂, hm₁, hm₂, updateSet, hc₂]
    · simp [apply_rules_row, hs₂, he₁, he₂, hm₁, hm₂, updateSet, hc₂]
  · intro trn r₁ r₂ c₂ he₁ he₂ hm₁ hm₂ hc₂ heq
    have hnlt : ¬ r₂.priority < r₁.priority := by omega
    have hs₁ : sortRules [r₁, r₂] = [r₁, r₂] := by
      simp [sortRules, insertRule, hnlt]
    simp [apply_rules_row, hs₁, he₁, he₂, hm₁, hm₂, updateSet, hc₂]

/-- C1 witness: the second and third parts applied to the concrete AMZN
rules. -/
theorem C1_rule_priority_order_last_write_wins_witness :
    (apply_rules_row amznTrn [amznRule10, amznRule20]).category_id = some 7 ∧
    (apply_rules_row amznTrn [amznRule20, amznRule10]).category_id = some 7 := by
  have h := C1_rule_priority_order_last_write_wins.2.1 amznTrn amznRule10 amznRule20
    5 7 (by rfl) (by rfl) (by rfl) (by rfl) (by rfl) (by rfl) (by decide)
  exact ⟨h.1, h.2⟩

/-- C6: Date normalization is idempotent — every accepted input
normalises to a fixed point — clearly malformed dates like `"13/45/2024"`
are rejected with a validation error, and ambiguous two-locale inputs are
resolved by the first matching format in the listed order (`03/04/2024`
is taken as DD/MM, `02-01-2024` as DD-MM). -/
theorem C6_coerce_date_idempotent_rejects_malformed :
    (∀ s t : String, coerce_date s = .ok t → coerce_date t = .ok t)
  ∧ coerce_date "13/45/2024" =
      .error "Invalid date format: 13/45/2024. Use YYYY-MM-DD."
  ∧ coerce_date "03/04/2024" = .ok "2024-04-03"
  ∧ coerce_date "02-01-2024" = .ok "2024-01-02" := by
  refine ⟨?_, by rfl, by rfl, by rfl⟩
  intro s t h
  exact coerce_date_canonical (coerce_date_ok_shape h)

/-- C6 witness: idempotence applied at `"03/04/2024"`. -/
theorem C6_coerce_date_idempotent_rejects_malformed_witness :
    coerce_date "2024-04-03" = .ok "2024-04-03" :=
  C6_coerce_date_idempotent_rejects_malformed.1 ("03/04/2024") ("2024-04-03")
    (by rfl)

/-- C10: `coerce_date` returns unchanged, without error, any input
matching the canonical digit pattern `\d{4}-\d{2}-\d{2}`, even when it is
not a valid calendar date — `"2024-13-45"` is accepted as-is — while the
same digits in a non-canonical format are rejected, i.e. calendar
validity is only enforced for non-canonical inputs. -/
theorem C10_canonical_shape_returned_unchanged :
    (∀ s : String, isCanonicalShape s = true → coerce_date s = .ok s)
  ∧ coerce_date "2024-13-45" = .ok "2024-13-45"
  ∧ coerce_date "2024/13/45" =
      .error "Invalid date format: 2024/13/45. Use YYYY-MM-DD." :=
  ⟨fun _ h => coerce_date_canonical h, by rfl, by rfl⟩

/-- C10 witness: the canonical-shape rule applied at `"2024-13-45"`. -/
theorem C10_canonical_shape_returned_unchanged_witness :
    isCanonicalShape "2024-13-45" = true ∧
    coerce_date "2024-13-45" = .ok "2024-13-45" :=
  ⟨by rfl, C10_canonical_shape_returned_unchanged.1 ("2024-13-45") (by rfl)⟩

/-- C4: The budget summary computes the month's first and last calendar
day (leap-year and December-rollover aware), outer-joins every existing
category (one row per category, a category with no budget and no spend
showing `budget_amount = none, actual_spent = 0, variance = 0`), and
reports `variance = budget_amount - actual_spent` with a missing budget
treated as 0; for a category with a 500 budget and 300 of expense splits
in the month, variance = 200. -/
theorem C4_budget_summary_window_outer_join_variance :
    (∀ y m : Nat, 1 ≤ m → m ≤ 12 → monthEnd y m = ⟨y, m, daysInMonth y m⟩)
  ∧ (daysInMonth 2024 2 = 29 ∧ daysInMonth 2023 2 = 28 ∧
     daysInMonth 2000 2 = 29 ∧ daysInMonth 1900 2 = 28)
  ∧ (∀ (db : DB) (month : String) (rows : List BudgetRow),
        get_budget_summary db month = .ok rows →
        rows.length = db.categories.length ∧
        (∀ cat ∈ db.categories, ∃ r ∈ rows, r.category_id = cat.id) ∧
        (∀ r ∈ rows, r.variance = r.budget_amount.getD 0 - r.actual_spent))
  ∧ get_budget_summary dbBudget "202401" =
      .ok [⟨1, "Food", some 500, 300, 200⟩, ⟨2, "Other", none, 0, 0⟩] := by
  refine ⟨?_, by norm_num [daysInMonth, isLeap], ?_, by decide⟩
  · intro y m h1 h2
    by_cases hm : m = 12
    · subst hm
      norm_num [monthEnd, prevDay, daysInMonth]
    · have hgt : m + 1 > 1 := by omega
      simp [monthEnd, hm, prevDay, hgt]
  · intro db month rows h
    rw [get_budget_summary] at h
    split at h
    · cases h
    · dsimp only [] at h
      split at h
      · cases h
      · split at h
        · cases h
        · injection h with h
          subst h
          refine ⟨((sortBy_perm _ _).length_eq).trans (List.length_map _ _), ?_, ?_⟩
          · intro cat hcat
            exact ⟨_, (sortBy_perm _ _).mem_iff.mpr (List.mem_map_of_mem _ hcat), rfl⟩
          · intro r hr
            obtain ⟨cat, hc, rfl⟩ := List.mem_map.mp ((sortBy_perm _ _).mem_iff.mp hr)
            rfl

/-- C4 witness: the month-end rule at February 2024 and the outer-join
facts applied at the concrete store. -/
theorem C4_budget_summary_window_outer_join_variance_witness :
    monthEnd 2024 2 = ⟨2024, 2, daysInMonth 2024 2⟩ ∧
    ([⟨1, "Food", some 500, 300, 200⟩, ⟨2, "Other", none, 0, 0⟩] :
        List BudgetRow).length = dbBudget.categories.length :=
  ⟨C4_budget_summary_window_outer_join_variance.1 2024 2 (by decide) (by decide),
   (C4_budget_summary_window_outer_join_variance.2.2.1 dbBudget ("202401") _
     C4_budget_summary_window_outer_join_variance.2.2.2).1⟩

/-- C5 counterexample: with history nets `[100, 0, 0]` the flat average
is `100/3`, but the single projected month carries `33.33`
(`round(avg, 2)`), not the average itself — refuting "each equal to the
flat average" as stated. -/
theorem C5_forecast_flat_average_counterexample :
    forecast_cashflow dbForecastFrac 1 ⟨2024, 7, 15⟩ =
      .ok ⟨histForecastFrac, [⟨⟨2024, 4⟩, 3333 / 100⟩]⟩ ∧
    histAvg histForecastFrac = 100 / 3 ∧
    (3333 / 100 : ℚ) ≠ 100 / 3 :=
  ⟨by decide, by decide, by decide⟩

/-- C5 (amended): the forecast clamps the horizon to 1–24 months,
averages the per-month net over only the months present in the trailing
window, and projects one pair per month — each net equal to the flat
average **rounded to two decimal places** — continuing sequentially from
the last historical month with December→January rollover; the spec's
`[100, -50]` example still yields three months of `net = 25.0` across a
year boundary. -/
theorem C5_forecast_clamped_rounded_average :
    (∀ months : Int, 1 ≤ clampMonths months ∧ clampMonths months ≤ 24 ∧
        (1 ≤ months → months ≤ 24 → (clampMonths months : Int) = months))
  ∧ (∀ (db : DB) (months : Int) (today : Date) (out : ForecastOut),
        forecast_cashflow db months today = .ok out →
        out.history ≠ [] →
        out.forecast.length = clampMonths months ∧
        (∀ e ∈ out.forecast, e.net = round2 (histAvg out.history)) ∧
        List.Chain' (fun a b => b.ym = nextYM a.ym) out.forecast)
  ∧ forecast_cashflow dbForecast 3 ⟨2024, 3, 10⟩ =
      .ok ⟨histForecast,
           [⟨⟨2024, 1⟩, 25⟩, ⟨⟨2024, 2⟩, 25⟩, ⟨⟨2024, 3⟩, 25⟩]⟩ := by
  refine ⟨?_, ?_, by decide⟩
  · intro months
    unfold clampMonths
    omega
  · intro db months today out h hne
    rw [forecast_cashflow] at h
    split at h
    · injection h with h
      subst h
      exact absurd rfl hne
    · split at h
      · cases h
      · injection h with h
        subst h
        refine ⟨by simp [projMonths_length], ?_, ?_⟩
        · intro e he
          obtain ⟨p, hp, rfl⟩ := List.mem_map.mp he
          rfl
        · rw [List.chain'_map]
          exact projMonths_chain' _ _

/-- C5 witness: the clamp bounds at 3 and the projection facts applied
at the concrete two-month store. -/
theorem C5_forecast_clamped_rounded_average_witness :
    (1 ≤ clampMonths 3 ∧ clampMonths 3 ≤ 24) ∧
    ([⟨⟨2024, 1⟩, 25⟩, ⟨⟨2024, 2⟩, 25⟩, ⟨⟨2024, 3⟩, 25⟩] :
        List FcRow).length = clampMonths 3 :=
  ⟨⟨(C5_forecast_clamped_rounded_average.1 3).1,
    (C5_forecast_clamped_rounded_average.1 3).2.1⟩,
   (C5_forecast_clamped_rounded_average.2.1 dbForecast 3 ⟨2024, 3, 10⟩ _
     C5_forecast_clamped_rounded_average.2.2 (by decide)).1⟩

/-- C2 counterexample: committing `[valid row, invalid-amount row]` from
an empty store surfaces the failing row's error, but leaves **zero**
transactions — the valid first row does *not* remain committed (the whole
batch runs in one implicit SQLite transaction that the connection context
manager rolls back), while importing the valid row alone does persist
it. -/
theorem C2_csv_import_earlier_rows_not_kept_counterexample :
    import_csv emptyDB [csvRowGood, csvRowBad] false "expense" none =
      (.error "Invalid amount: abc", emptyDB) ∧
    (import_csv emptyDB [csvRowGood, csvRowBad] false "expense" none).2.txns = [] ∧
    (import_csv emptyDB [csvRowGood] false "expense" none).2.txns.length = 1 :=
  ⟨by decide, by decide, by decide⟩

/-- C2 (amended): in commit mode each row inserts one transaction+split
pair, but within a single shared transaction: when a row fails
validation, processing stops, that row's error is the operation's error,
and **all** rows of the batch are rolled back (the store is returned
unchanged); only a fully successful import commits, with one
transaction and one split per row. -/
theorem C2_csv_import_rollback_on_row_failure :
    (∀ (db : DB) (rows : List CsvRow) (df : String) (ai : Option Nat) (e : String),
        (import_csv db rows false df ai).1 = .error e →
        (import_csv db rows false df ai).2 = db)
  ∧ (∀ (db : DB) (pre : List CsvRow) (row : CsvRow) (rest : List CsvRow)
        (df : String) (ai : Option Nat) (db₁ : DB) (n₁ : Nat)
        (pv₁ : List PreviewRow) (d : String) (e : String),
        importLoop false df ai (loadRules db) db 0 [] pre = .ok (db₁, n₁, pv₁) →
        coerce_date (strTrim row.date) = .ok d →
        money (.vStr row.amount) = .error e →
        import_csv db (pre ++ row :: rest) false df ai = (.error e, db))
  ∧ (∀ (db : DB) (rows : List CsvRow) (df : String) (ai : Option Nat)
        (out : ImportOut) (db' : DB),
        import_csv db rows false df ai = (.ok out, db') →
        out.inserted = rows.length ∧
        db'.txns.length = db.txns.length + rows.length ∧
        db'.splits.length = db.splits.length + rows.length) := by
  refine ⟨?_, ?_, ?_⟩
  · intro db rows df ai e h
    cases hl : importLoop false df ai (loadRules db) db 0 [] rows with
    | error e' => simp [import_csv, hl]
    | ok r =>
      obtain ⟨db', n, pv⟩ := r
      simp [import_csv, hl] at h
  · intro db pre row rest df ai db₁ n₁ pv₁ d e hpre hcd hm
    rw [import_csv, importLoop_append false df ai (loadRules db) pre (row :: rest)
          db 0 [], hpre]
    simp only [Except.bind, importLoop, hcd, hm]
  · intro db rows df ai out db' h
    cases hl : importLoop false df ai (loadRules db) db 0 [] rows with
    | error e =>
      rw [import_csv, hl] at h
      injection h with h₁ h₂
      cases h₁
    | ok r =>
      obtain ⟨dbx, n, pv⟩ := r
      rw [import_csv, hl] at h
      injection h with h₁ h₂
      injection h₁ with h₁
      subst h₁
      subst h₂
      obtain ⟨a, b, c, -⟩ :=
        importLoop_commit_counts df ai (loadRules db) rows db 0 [] dbx n pv hl
      exact ⟨by simpa using a, b, c⟩

/-- C2 witness: the first-failure rule applied at the concrete batch
`[valid, invalid, valid]` from the empty store. -/
theorem C2_csv_import_rollback_on_row_failure_witness :
    import_csv emptyDB ([csvRowGood] ++ csvRowBad :: [csvRowGood2]) false
      "expense" none = (.error "Invalid amount: abc", emptyDB) :=
  C2_csv_import_rollback_on_row_failure.2.1 emptyDB [csvRowGood] csvRowBad
    [csvRowGood2] ("expense") none dbOneImported 1 [] ("2024-01-03")
    ("Invalid amount: abc") (by decide) (by decide) (by decide)

/-- C7: Multi-statement mutations are atomic: whenever `add_transaction`
returns an error — including a validation failure partway through its
split inserts — the store is returned unchanged (the connection context
manager rolls the implicit transaction back), and likewise any failing
`delete_category` (the reassign-then-delete cascade) leaves the store
unchanged; concretely, a non-numeric amount on the second of two explicit
splits aborts with no transaction row and no split rows persisted, while
the fully valid call persists one transaction and two splits. -/
theorem C7_multi_statement_mutations_atomic :
    (∀ (db : DB) (date : String) (amount : Val) (ty : String)
        (accountId : Option Nat) (currency merchant notes : String)
        (splits : Option (List SplitIn)) (applyRules : Bool) (e : String),
        (add_transaction db date amount ty accountId currency merchant notes
            splits applyRules).1 = .error e →
        (add_transaction db date amount ty accountId currency merchant notes
            splits applyRules).2 = db)
  ∧ (∀ (db : DB) (id : Nat) (reassign : Option Nat) (incl : Bool) (e : String),
        (delete_category db id reassign incl).1 = .error e →
        (delete_category db id reassign incl).2 = db)
  ∧ add_transaction emptyDB "2024-01-02" (.vNum 100) "expense" none "INR" "" ""
      (some [goodSplitIn, badSplitIn]) true = (.error "Invalid amount: x", emptyDB)
  ∧ ((add_transaction emptyDB "2024-01-02" (.vNum 100) "expense" none "INR" "" ""
        (some [goodSplitIn, goodSplitIn]) true).2.txns.length = 1 ∧
     (add_transaction emptyDB "2024-01-02" (.vNum 100) "expense" none "INR" "" ""
        (some [goodSplitIn, goodSplitIn]) true).2.splits.length = 2) := by
  refine ⟨?_, ?_, by decide, by decide, by decide⟩
  · intro db date amount ty accountId currency merchant notes splits applyRules e h
    cases hc : coerce_date date with
    | error e' => simp [add_transaction, hc]
    | ok d =>
      cases hm : money amount with
      | error e' => simp [add_transaction, hc, hm]
      | ok amt =>
        by_cases hty : ty ≠ "expense" ∧ ty ≠ "income" ∧ ty ≠ "transfer"
        · simp only [add_transaction, hc, hm, if_pos hty]
        · simp only [add_transaction, hc, hm, if_neg hty] at h ⊢
          cases hb : addTxnBody db d amt ty accountId currency merchant notes
              splits applyRules with
          | error e' => simp [hb]
          | ok r =>
            obtain ⟨db', txId⟩ := r
            simp [hb] at h
  · intro db id reassign incl e h
    by_cases h1 : db.categories.any (fun c => c.id = id) = true
    · simp only [delete_category, h1, not_true, if_false] at h ⊢
      cases reassign with
      | none => simp at h
      | some t =>
        by_cases h2 : t = id
        · simp [h2]
        · by_cases h3 : db.categories.any (fun c => c.id = t) = true
          · simp [h2, h3] at h
          · simp [h2, h3]
    · simp [delete_category, h1]

/-- C7 witness: the rollback rule applied at the concrete
two-splits-one-invalid call. -/
theorem C7_multi_statement_mutations_atomic_witness :
    (add_transaction emptyDB "2024-01-02" (.vNum 100) "expense" none "INR" "" ""
       (some [goodSplitIn, badSplitIn]) true).2 = emptyDB :=
  C7_multi_statement_mutations_atomic.1 emptyDB ("2024-01-02") (.vNum 100)
    ("expense") none ("INR") ("") ("") (some [goodSplitIn, badSplitIn]) true
    ("Invalid amount: x") (by decide)

/-- C8: `update_transaction` applies only fields in the allow-list
`{date, amount, account_id, currency, type, merchant, notes}` — the
result is unchanged when unknown fields are dropped from the patch — a
patch touching zero allowed fields fails with a validation error rather
than succeeding as a no-op, a patched date is re-normalised, and a
non-numeric amount is rejected. -/
theorem C8_update_allow_list_empty_patch_error :
    (∀ (db : DB) (id : Nat) (fields : List (String × Val)),
        update_transaction db id fields =
          update_transaction db id
            (fields.filter (fun kv => allowedFields.contains kv.1)))
  ∧ (∀ (db : DB) (id : Nat) (fields : List (String × Val)),
        fields.filter (fun kv => allowedFields.contains kv.1) = [] →
        update_transaction db id fields =
          (.error "No updatable fields provided", db))
  ∧ update_transaction dbOneTxn 1 [("date", .vStr "02/01/2024"), ("foo", .vNum 9)] =
      (.ok 1,
       { dbOneTxn with
         txns := [⟨1, "2024-01-02", none, 10, "INR", "expense", "", ""⟩] })
  ∧ update_transaction dbOneTxn 1 [("amount", .vStr "abc")] =
      (.error "Invalid amount: abc", dbOneTxn) := by
  refine ⟨?_, ?_, by decide, by decide⟩
  · intro db id fields
    rw [update_transaction, update_transaction, ← processFields_filter]
  · intro db id fields hf
    rw [update_transaction, processFields_filter, hf]
    rfl

/-- C8 witness: the empty-effective-patch rule applied to a patch holding
only an unknown key. -/
theorem C8_update_allow_list_empty_patch_error_witness :
    update_transaction dbOneTxn 1 [("foo", .vNum 9)] =
      (.error "No updatable fields provided", dbOneTxn) :=
  C8_update_allow_list_empty_patch_error.2.1 dbOneTxn 1 [("foo", .vNum 9)]
    (by decide)

/-- C9 counterexample: deleting or updating a missing transaction id, or
deleting a missing split id, completes as a successful no-op reporting 0
affected rows — no explicit existence check, no not-found error. -/
theorem C9_not_found_silent_noop_counterexample :
    delete_transaction emptyDB 1 = (.ok 0, emptyDB) ∧
    delete_split emptyDB 1 = (.ok 0, emptyDB) ∧
    update_transaction emptyDB 1 [("notes", .vStr "x")] = (.ok 0, emptyDB) :=
  ⟨by decide, by decide, by decide⟩

/-- C9 (amended): category and account deletion perform an explicit
existence check before mutating and return a clear not-found error, but
`delete_transaction`, `delete_split` and `update_transaction` (with a
valid patch) addressed to a missing id complete as silent no-op successes
reporting 0 affected rows, with the store unchanged. -/
theorem C9_not_found_checks_only_for_category_account :
    (∀ (db : DB) (id : Nat),
        db.txns.any (fun t => t.id = id) = false →
        delete_transaction db id = (.ok 0, db))
  ∧ (∀ (db : DB) (sid : Nat),
        db.splits.any (fun s => s.id = sid) = false →
        delete_split db sid = (.ok 0, db))
  ∧ (∀ (db : DB) (id : Nat) (fields : List (String × Val)) (n : Nat) (db₂ : DB),
        update_transaction db id fields = (.ok n, db₂) →
        db.txns.any (fun t => t.id = id) = false →
        n = 0 ∧ db₂ = db)
  ∧ (∀ (db : DB) (id : Nat),
        db.categories.any (fun c => c.id = id) = false →
        delete_category db id none true =
          (.error ("Category " ++ toString id ++ " not found"), db))
  ∧ (∀ (db : DB) (id : Nat),
        db.accounts.any (fun a => a.id = id) = false →
        delete_account db id none =
          (.error ("Account " ++ toString id ++ " not found"), db)) := by
  refine ⟨?_, ?_, ?_, ?_, ?_⟩
  · intro db id h
    have hall : ∀ t ∈ db.txns, ¬ (t.id = id) := by
      intro t ht heq
      have : db.txns.any (fun t => t.id = id) = true :=
        List.any_eq_true.mpr ⟨t, ht, by simp [heq]⟩
      rw [h] at this
      cases this
    rw [delete_transaction]
    have h0 : (db.txns.filter (fun t => t.id = id)).length = 0 := by
      rw [any_false_filter _ _ h]
      rfl
    have h1 : db.txns.filter (fun t => t.id ≠ id) = db.txns := by
      rw [List.filter_eq_self]
      intro t ht
      simp [hall t ht]
    rw [h0, h1, h]
    simp
  · intro db sid h
    have hall : ∀ s ∈ db.splits, ¬ (s.id = sid) := by
      intro s hs heq
      have : db.splits.any (fun s => s.id = sid) = true :=
        List.any_eq_true.mpr ⟨s, hs, by simp [heq]⟩
      rw [h] at this
      cases this
    rw [delete_split]
    have h0 : (db.splits.filter (fun s => s.id = sid)).length = 0 := by
      rw [any_false_filter _ _ h]
      rfl
    have h1 : db.splits.filter (fun s => s.id ≠ sid) = db.splits := by
      rw [List.filter_eq_self]
      intro s hs
      simp [hall s hs]
    rw [h0, h1]
  · intro db id fields n db₂ h hmiss
    have hall : ∀ t ∈ db.txns, t.id ≠ id := by
      intro t ht heq
      have : db.txns.any (fun t => t.id = id) = true :=
        List.any_eq_true.mpr ⟨t, ht, by simp [heq]⟩
      rw [hmiss] at this
      cases this
    rw [update_transaction] at h
    cases hp : processFields fields with
    | error e =>
      simp only [hp] at h
      injection h with h₁ h₂
      cases h₁
    | ok sets =>
      simp only [hp] at h
      by_cases hempty : sets.isEmpty = true
      · rw [if_pos hempty] at h
        injection h with h₁ h₂
        cases h₁
      · rw [if_neg hempty, updateTxns_miss db id sets db.txns hall] at h
        injection h with h₁ h₂
        injection h₁ with h₁
        have h0 : (db.txns.filter (fun t => t.id = id)).length = 0 := by
          rw [any_false_filter _ _ hmiss]
          rfl
        constructor
        · rw [← h₁, h0]
        · rw [← h₂]
  · intro db id h
    simp [delete_category, h]
  · intro db id h
    simp [delete_account, h]

/-- C9 witness: the explicit checks and no-op rules applied at id 2 on
the empty store. -/
theorem C9_not_found_checks_only_for_category_account_witness :
    delete_category emptyDB 2 none true =
      (.error ("Category " ++ toString 2 ++ " not found"), emptyDB) ∧
    delete_transaction emptyDB 2 = (.ok 0, emptyDB) :=
  ⟨C9_not_found_checks_only_for_category_account.2.2.2.1 emptyDB 2 (by decide),
   C9_not_found_checks_only_for_category_account.1 emptyDB 2 (by decide)⟩

/-- C3 counterexample: deleting category 1 (whose subtree is `[1, 2]`)
with reassignment target 2 — a member of the set being deleted — does
*not* fail: it succeeds, deletes both categories, and the split
previously categorised under 2 ends up with a null category (repointed to
2, then nulled by the delete cascade), contradicting the claimed
validation of descendant targets. -/
theorem C3_delete_category_descendant_target_counterexample :
    (delete_category dbSubtree 1 (some 2) true).1 = .ok ⟨2, 1, [1, 2], some 2⟩ ∧
    (delete_category dbSubtree 1 (some 2) true).2.categories = [] ∧
    (delete_category dbSubtree 1 (some 2) true).2.splits =
      [⟨1, 1, none, 10, 0, 0, ""⟩] :=
  ⟨by decide, by decide, by decide⟩

/-- C3 (amended): deleting a category subtree with a reassignment target
fails with a validation error (and deletes nothing) when the target does
not exist or **is the deleted category itself** — a target that is a
proper descendant of the deleted category is *not* rejected; when the
target exists outside the deleted closure, every split referencing the
closure is repointed to the target before deletion, leaving zero splits
referencing the deleted closure and no closure category in the store. -/
theorem C3_delete_category_reassign_validation_and_repoint :
    (∀ (db : DB) (id t : Nat) (incl : Bool),
        db.categories.any (fun c => c.id = id) = true →
        db.categories.any (fun c => c.id = t) = false →
        t ≠ id →
        delete_category db id (some t) incl =
          (.error ("Target category " ++ toString t ++ " not found"), db))
  ∧ (∀ (db : DB) (id : Nat) (incl : Bool),
        db.categories.any (fun c => c.id = id) = true →
        delete_category db id (some id) incl =
          (.error "reassign_to_id cannot be the same as the category being deleted",
           db))
  ∧ (∀ (db : DB) (id t : Nat),
        db.categories.any (fun c => c.id = id) = true →
        db.categories.any (fun c => c.id = t) = true →
        t ≠ id →
        (subtreeIds db.categories id).contains t = false →
        descClosure db.categories db.categories.length
            (subtreeIds db.categories id) = subtreeIds db.categories id →
        (∃ out, (delete_category db id (some t) true).1 = .ok out) ∧
        (∀ s ∈ (delete_category db id (some t) true).2.splits, ∀ c,
            s.categoryId = some c →
            (subtreeIds db.categories id).contains c = false) ∧
        (∀ s ∈ db.splits, ∀ c, s.categoryId = some c →
            (subtreeIds db.categories id).contains c = true →
            ∃ s' ∈ (delete_category db id (some t) true).2.splits,
              s'.id = s.id ∧ s'.categoryId = some t) ∧
        (∀ cat ∈ (delete_category db id (some t) true).2.categories,
            (subtreeIds db.categories id).contains cat.id = false)) := by
  refine ⟨?_, ?_, ?_⟩
  · intro db id t incl hex hmiss hne
    simp [delete_category, hex, hne, hmiss]
  · intro db id incl hex
    simp [delete_category, hex]
  · intro db id t hex hext hne hnotin hclosed
    simp only [delete_category, hex, not_true, Bool.not_eq_true, if_false,
      Bool.true_eq_false, if_true, hne, hext, hclosed, if_pos rfl]
    refine ⟨?_, ?_, ?_, ?_⟩
    · simp [hne, hext]
    · intro s hs c hc
      rw [List.map_map] at hs
      obtain ⟨s₀, hs₀, rfl⟩ := List.mem_map.mp hs
      have hnotin' : t ∉ subtreeIds db.categories id := by simpa using hnotin
      cases hcat : s₀.categoryId with
      | none => simp [Function.comp, hcat] at hc
      | some c₀ =>
        by_cases hin' : c₀ ∈ subtreeIds db.categories id
        · simp [Function.comp, hcat, hin', hnotin'] at hc
          simpa [← hc] using hnotin
        · simp [Function.comp, hcat, hin'] at hc
          simpa [← hc] using hin'
    · intro s hs c hc hin
      rw [List.map_map]
      have hin' : c ∈ subtreeIds db.categories id := by simpa using hin
      have hnotin' : t ∉ subtreeIds db.categories id := by simpa using hnotin
      refine ⟨_, List.mem_map_of_mem _ hs, ?_, ?_⟩
      · simp [Function.comp, hc, hin', hnotin']
      · simp [Function.comp, hc, hin', hnotin']
    · intro cat hcat
      have := (List.mem_filter.mp hcat).2
      simpa using this

/-- C3 witness: the amended rules applied at the concrete stores (target
3 lives outside the subtree `[1, 2]` of category 1). -/
theorem C3_delete_category_reassign_validation_and_repoint_witness :
    delete_category dbSubtree 1 (some 3) true =
      (.error ("Target category " ++ toString 3 ++ " not found"), dbSubtree) ∧
    (∃ out, (delete_category dbSubtree3 1 (some 3) true).1 = .ok out) ∧
    (∀ cat ∈ (delete_category dbSubtree3 1 (some 3) true).2.categories,
        (subtreeIds dbSubtree3.categories 1).contains cat.id = false) :=
  ⟨C3_delete_category_reassign_validation_and_repoint.1 dbSubtree 1 3 true
     (by decide) (by decide) (by decide),
   (C3_delete_category_reassign_validation_and_repoint.2.2 dbSubtree3 1 3
     (by decide) (by decide) (by decide) (by decide) (by decide)).1,
   (C3_delete_category_reassign_validation_and_repoint.2.2 dbSubtree3 1 3
     (by decide) (by decide) (by decide) (by decide) (by decide)).2.2.2⟩

end Main

end ExpenseTracker
